import Mathlib

/-!
# Verification of the deterministic time-series engine of earth-scope-live

Shallow embedding of the backend request handlers under
`src/supabase/functions/` (get-ndvi, the aerosol-index handler bundled in the
same file, get-no2, get-so2, get-co) and of the client parameter table
(the `PARAMETERS` record of the shared types module).

Modelling conventions:
* JavaScript numbers are modelled as exact rationals `ℚ`; the IEEE-754
  rounding of individual operations is idealised away, but the *decimal*
  roundings that the code performs explicitly (`toFixed(4)`, `toExponential(4)`)
  are modelled exactly.
* `Math.sin` is transcendental and is modelled by an abstract function
  `jsin : ℚ → ℚ`; every theorem that needs it quantifies over it (with the
  range bound `-1 ≤ jsin x ≤ 1` where required).  `Math.PI` is modelled by the
  exact value of the IEEE-754 double constant.
* `Math.random()` (used only by the per-point NO2 generator) is modelled by an
  explicit stream `rand : ℕ → ℚ` consumed one draw per generated point, making
  the ambient randomness an explicit input.
* The statistics block of the handlers is modelled over `JSNum`, a small model
  of JavaScript number semantics with `NaN` and the infinities, because the
  handlers run it on possibly-empty series where `0/0 = NaN` arises.
-/

namespace EarthScope

/-- `PAKISTAN_BOUNDS` from the handlers: the Pakistan bounding box. -/
structure GeoBounds where
  minLat : ℚ
  maxLat : ℚ
  minLon : ℚ
  maxLon : ℚ
deriving DecidableEq

def PAKISTAN_BOUNDS : GeoBounds :=
  { minLat := 23.5, maxLat := 37.1, minLon := 60.9, maxLon := 77.5 }

/-- `isInsidePakistan(lat, lon)` from the handlers. -/
def isInsidePakistan (lat lon : ℚ) : Bool :=
  decide (PAKISTAN_BOUNDS.minLat ≤ lat ∧ lat ≤ PAKISTAN_BOUNDS.maxLat ∧
    PAKISTAN_BOUNDS.minLon ≤ lon ∧ lon ≤ PAKISTAN_BOUNDS.maxLon)

/-- Exact value of the IEEE-754 double constant `Math.PI`. -/
def piq : ℚ := 884279719003555 / 281474976710656

/-- `Number(x.toFixed(4))`: round to four decimal places
(ties are rounded to the larger value, as `toFixed` does). -/
def toFixed4 (q : ℚ) : ℚ := (round (q * 10000) : ℤ) / 10000

/-- `Number(x.toFixed(1))`: round to one decimal place. -/
def toFixed1 (q : ℚ) : ℚ := (round (q * 10) : ℤ) / 10

/-- `seededRandom(seed)` from the handlers:
`x = Math.sin(seed * 9301 + 49297) * 49297; return x - Math.floor(x)`,
parameterised by the model `jsin` of `Math.sin`. -/
def seededRandom (jsin : ℚ → ℚ) (seed : ℚ) : ℚ :=
  let x := jsin (seed * 9301 + 49297) * 49297
  x - ⌊x⌋

/-- `locationSeed = Math.round(lat * 10000) + Math.round(lon * 10000) * 100000`
(`Math.round x = ⌊x + 1/2⌋`, which is Mathlib's `round`). -/
def locationSeed (lat lon : ℚ) : ℤ :=
  round (lat * 10000) + round (lon * 10000) * 100000

/-- One generated point `{date, value, min, max}`.  The `date` string
`"YYYY-MM-01"` is represented by the (year, month) pair that determines it. -/
structure TSPoint where
  date : ℤ × ℕ
  value : ℚ
  min : ℚ
  max : ℚ
deriving DecidableEq

/-- Chronological order on the (year, month) dates. -/
def dateLt (a b : ℤ × ℕ) : Prop := a.1 < b.1 ∨ (a.1 = b.1 ∧ a.2 < b.2)

instance : DecidableRel dateLt := fun a b => by unfold dateLt; infer_instance

/-- The years visited by `for (let year = startYear; year <= endYear; year++)`. -/
def yearsList (s e : ℤ) : List ℤ :=
  (List.range (e + 1 - s).toNat).map (fun (i : ℕ) => s + (i : ℤ))

/-- The months visited by `for (let month = 1; month <= 12; month++)`. -/
def monthsList : List ℕ := (List.range 12).map (· + 1)

/-- All (year, month) dates of the nested loops, in generation order. -/
def monthlyDates (s e : ℤ) : List (ℤ × ℕ) :=
  (yearsList s e).flatMap (fun y => monthsList.map (fun m => (y, m)))

/-- `monthRadians = ((month - 1) / 12) * 2 * Math.PI`. -/
def monthRadians (month : ℕ) : ℚ := (((month : ℚ) - 1) / 12) * 2 * piq

/-! ## The NDVI generator (`generateDeterministicNDVI`, get-ndvi) -/

/-- The region selection of `generateDeterministicNDVI`:
`(baseNDVI, seasonalAmplitude, yearlyTrend)` from the if/else chain over
`isIndusPlain`, `isNorthernMountains`, `isBalochistan`, `isSindh`. -/
def ndviRegionParams (lat lon : ℚ) : ℚ × ℚ × ℚ :=
  if 25 ≤ lat ∧ lat ≤ 32 ∧ 68 ≤ lon ∧ lon ≤ 75 then (0.45, 0.25, 0.005)
  else if 33 < lat then (0.55, 0.30, -0.003)
  else if lon < 67 then (0.15, 0.08, -0.002)
  else if lat < 27 then (0.30, 0.15, 0.002)
  else (0.40, 0.20, 0.003)

/-- Loop body of `generateDeterministicNDVI` for one (year, month). -/
def ndviPoint (jsin : ℚ → ℚ) (params : ℚ × ℚ × ℚ) (locSeed : ℤ)
    (startYear year : ℤ) (month : ℕ) : TSPoint :=
  let baseNDVI := params.1
  let seasonalAmplitude := params.2.1
  let yearlyTrend := params.2.2
  let seasonalComponent :=
    seasonalAmplitude * 0.6 * jsin (monthRadians month - piq / 2) +
    seasonalAmplitude * 0.4 * jsin (2 * monthRadians month + piq / 4)
  let trendComponent := yearlyTrend * ((year : ℚ) - (startYear : ℚ))
  let seed : ℚ := (locSeed : ℚ) + (year : ℚ) * 13 + (month : ℚ) * 7
  let variation := (seededRandom jsin seed - 0.5) * 0.06
  let ndvi0 := baseNDVI + seasonalComponent + trendComponent + variation
  let ndvi := max (-0.1) (min 0.9 ndvi0)
  let uncertainty := 0.03 + seededRandom jsin (seed + 1) * 0.02
  { date := (year, month)
    value := toFixed4 ndvi
    min := toFixed4 (ndvi - uncertainty)
    max := toFixed4 (ndvi + uncertainty) }

/-- `generateDeterministicNDVI(lat, lon, startYear, endYear)`. -/
def generateDeterministicNDVI (jsin : ℚ → ℚ) (lat lon : ℚ)
    (startYear endYear : ℤ) : List TSPoint :=
  let params := ndviRegionParams lat lon
  let locSeed := locationSeed lat lon
  (yearsList startYear endYear).flatMap fun year =>
    monthsList.map fun month => ndviPoint jsin params locSeed startYear year month

/-! ## The aerosol-index generator (`generateAerosolIndex`) -/

/-- Region data of `generateAerosolIndex`: `(baseAI, seasonalAmp)` from the
`isUrban` / `isDesert` tests. -/
def aiRegionParams (lat lon : ℚ) : ℚ × ℚ :=
  let isUrban := (31 ≤ lat ∧ lat ≤ 32 ∧ 74 ≤ lon ∧ lon ≤ 75) ∨
    (24.8 ≤ lat ∧ lat ≤ 25.1 ∧ 67 ≤ lon ∧ lon ≤ 67.3)
  let isDesert := lon < 67 ∨ (lat < 27 ∧ 69 < lon)
  ((if isUrban then 1.8 else if isDesert then 2.2 else 1.0),
   (if isDesert then 1.2 else 0.6))

/-- Loop body of `generateAerosolIndex` for one (year, month). -/
def aiPoint (jsin : ℚ → ℚ) (params : ℚ × ℚ) (locSeed : ℤ)
    (year : ℤ) (month : ℕ) : TSPoint :=
  let baseAI := params.1
  let seasonalAmp := params.2
  let seasonal := seasonalAmp * jsin (monthRadians month - piq / 6)
  let seed : ℚ := (locSeed : ℚ) + (year : ℚ) * 13 + (month : ℚ) * 7
  let variation := (seededRandom jsin seed - 0.5) * 0.4
  let ai0 := baseAI + seasonal + variation
  let ai := max 0 (min 5 ai0)
  let unc := 0.1 + seededRandom jsin (seed + 1) * 0.1
  { date := (year, month)
    value := toFixed4 ai
    min := toFixed4 (ai - unc)
    max := toFixed4 (ai + unc) }

/-- `generateAerosolIndex(lat, lon, startYear, endYear)`. -/
def generateAerosolIndex (jsin : ℚ → ℚ) (lat lon : ℚ)
    (startYear endYear : ℤ) : List TSPoint :=
  let params := aiRegionParams lat lon
  let locSeed := locationSeed lat lon
  (yearsList startYear endYear).flatMap fun year =>
    monthsList.map fun month => aiPoint jsin params locSeed year month

/-! ## The SO2 generator (`generateSO2`, get-so2) -/

/-- `baseSO2` from the `isIndustrial` test of `generateSO2`. -/
def so2Base (lat lon : ℚ) : ℚ :=
  if (31 ≤ lat ∧ lat ≤ 32 ∧ 74 ≤ lon ∧ lon ≤ 75) ∨
     (24.8 ≤ lat ∧ lat ≤ 25.1 ∧ 67 ≤ lon ∧ lon ≤ 67.3) then 0.35 else 0.12

/-- Loop body of `generateSO2` for one (year, month). -/
def so2Point (jsin : ℚ → ℚ) (baseSO2 : ℚ) (locSeed : ℤ)
    (year : ℤ) (month : ℕ) : TSPoint :=
  let seasonal := 0.08 * jsin (monthRadians month + piq)
  let seed : ℚ := (locSeed : ℚ) + (year : ℚ) * 13 + (month : ℚ) * 7
  let variation := (seededRandom jsin seed - 0.5) * 0.06
  let so2a := baseSO2 + seasonal + variation
  let so2 := max 0.01 (min 1.5 so2a)
  let unc : ℚ := 0.02
  { date := (year, month)
    value := toFixed4 so2
    min := toFixed4 (so2 - unc)
    max := toFixed4 (so2 + unc) }

/-- `generateSO2(lat, lon, startYear, endYear)`. -/
def generateSO2 (jsin : ℚ → ℚ) (lat lon : ℚ)
    (startYear endYear : ℤ) : List TSPoint :=
  let base := so2Base lat lon
  let locSeed := locationSeed lat lon
  (yearsList startYear endYear).flatMap fun year =>
    monthsList.map fun month => so2Point jsin base locSeed year month

/-! ## The CO generator (`generateCO`, get-co) -/

/-- `baseCO` from the `isUrban` test of `generateCO`. -/
def coBase (lat lon : ℚ) : ℚ :=
  if (31 ≤ lat ∧ lat ≤ 32 ∧ 74 ≤ lon ∧ lon ≤ 75) ∨
     (24.8 ≤ lat ∧ lat ≤ 25.1 ∧ 67 ≤ lon ∧ lon ≤ 67.3) then 0.042 else 0.028

/-- Loop body of `generateCO` for one (year, month). -/
def coPoint (jsin : ℚ → ℚ) (baseCO : ℚ) (locSeed : ℤ)
    (year : ℤ) (month : ℕ) : TSPoint :=
  let seasonal := 0.008 * jsin (monthRadians month + piq) +
    0.004 * jsin (2 * monthRadians month - piq / 3)
  let seed : ℚ := (locSeed : ℚ) + (year : ℚ) * 13 + (month : ℚ) * 7
  let variation := (seededRandom jsin seed - 0.5) * 0.005
  let co0 := baseCO + seasonal + variation
  let co := max 0.015 (min 0.08 co0)
  let unc : ℚ := 0.002
  { date := (year, month)
    value := toFixed4 co
    min := toFixed4 (co - unc)
    max := toFixed4 (co + unc) }

/-- `generateCO(lat, lon, startYear, endYear)`. -/
def generateCO (jsin : ℚ → ℚ) (lat lon : ℚ)
    (startYear endYear : ℤ) : List TSPoint :=
  let base := coBase lat lon
  let locSeed := locationSeed lat lon
  (yearsList startYear endYear).flatMap fun year =>
    monthsList.map fun month => coPoint jsin base locSeed year month

/-! ## The NO2 generator (`generateNO2`, get-no2)

`generateNO2` draws `Math.random()` once per point; the ambient random stream
is modelled as an explicit argument `rand : ℕ → ℚ` indexed by the 0-based
position of the point in generation order.  Its values are rounded with
`Number(x.toExponential(4))`, i.e. to five significant decimal digits. -/

/-- Fuel-driven decimal logarithm: for `1 ≤ n` (and fuel `≥ n`) it returns the
`k` with `10 ^ k ≤ n < 10 ^ (k + 1)`. -/
def decExpNat : ℕ → ℕ → ℕ
  | 0, _ => 0
  | fuel + 1, n => if n < 10 then 0 else decExpNat fuel (n / 10) + 1

/-- Decimal exponent of a rational `1 ≤ q`. -/
def decExp (q : ℚ) : ℤ := decExpNat (⌊q⌋).toNat (⌊q⌋).toNat

/-- `Number(x.toExponential(4))`: round to five significant decimal digits.
This models `toExponential(4)` for arguments `1 ≤ q`, which covers every value
the NO2 generator rounds (they are all `≥ 0.92e14`). -/
def toExponential4 (q : ℚ) : ℚ :=
  let e : ℤ := decExp q
  (round (q / (10 : ℚ) ^ (e - 4)) : ℤ) * (10 : ℚ) ^ (e - 4)

/-- `isUrban ? 8.5e15 : 2.5e15` from `generateNO2` (molecules/cm²). -/
def no2Base (lat lon : ℚ) : ℚ :=
  if (31 ≤ lat ∧ lat ≤ 32 ∧ 74 ≤ lon ∧ lon ≤ 75) ∨
     (33.5 ≤ lat ∧ lat ≤ 34 ∧ 73 ≤ lon ∧ lon ≤ 73.3) ∨
     (24.8 ≤ lat ∧ lat ≤ 25.1 ∧ 67 ≤ lon ∧ lon ≤ 67.3)
  then 8500000000000000 else 2500000000000000

/-- Loop body of `generateNO2` for one (year, month); `idx` is the 0-based
position of the point, which indexes the `Math.random()` stream. -/
def no2Point (jsin : ℚ → ℚ) (rand : ℕ → ℚ) (baseNO2 : ℚ)
    (startYear year : ℤ) (month : ℕ) : TSPoint :=
  let seasonal := baseNO2 * 0.25 * jsin (monthRadians month + piq)
  let yearAdj : ℚ := if year = 2020 ∧ 3 ≤ month ∧ month ≤ 6 then -baseNO2 * 0.3 else 0
  let idx : ℕ := ((year - startYear) * 12 + ((month : ℤ) - 1)).toNat
  let random := (rand idx - 0.5) * baseNO2 * 0.15
  let no2a := baseNO2 + seasonal + yearAdj + random
  let no2 := max 100000000000000 no2a
  let unc := no2 * 0.08
  { date := (year, month)
    value := toExponential4 no2
    min := toExponential4 (no2 - unc)
    max := toExponential4 (no2 + unc) }

/-- `generateNO2(lat, lon, startYear, endYear)`, with the `Math.random()`
stream as the explicit argument `rand`. -/
def generateNO2 (jsin : ℚ → ℚ) (rand : ℕ → ℚ) (lat lon : ℚ)
    (startYear endYear : ℤ) : List TSPoint :=
  let base := no2Base lat lon
  (yearsList startYear endYear).flatMap fun year =>
    monthsList.map fun month => no2Point jsin rand base startYear year month

/-! ## JavaScript number semantics for the statistics block

The handlers run their statistics block on `values = timeSeries.map(p => p.value)`
even when the series is empty, in which case `values.length` is `0` and JS
produces `0 / 0 = NaN`, `Math.min() = Infinity`, `Math.max() = -Infinity`.
`JSNum` models the JS doubles reachable there: finite values are exact
rationals. -/

inductive JSNum where
  | nan : JSNum
  | inf : JSNum
  | ninf : JSNum
  | num : ℚ → JSNum
deriving DecidableEq

/-- JS addition. -/
def jadd : JSNum → JSNum → JSNum
  | .num a, .num b => .num (a + b)
  | .nan, _ => .nan
  | _, .nan => .nan
  | .inf, .ninf => .nan
  | .ninf, .inf => .nan
  | .inf, _ => .inf
  | _, .inf => .inf
  | .ninf, _ => .ninf
  | _, .ninf => .ninf

/-- JS subtraction. -/
def jsub : JSNum → JSNum → JSNum
  | .num a, .num b => .num (a - b)
  | .nan, _ => .nan
  | _, .nan => .nan
  | .inf, .inf => .nan
  | .ninf, .ninf => .nan
  | .inf, _ => .inf
  | _, .inf => .ninf
  | .ninf, _ => .ninf
  | _, .ninf => .inf

/-- JS multiplication (`0 * ±Infinity = NaN`). -/
def jmul : JSNum → JSNum → JSNum
  | .num a, .num b => .num (a * b)
  | .nan, _ => .nan
  | _, .nan => .nan
  | .inf, .inf => .inf
  | .inf, .ninf => .ninf
  | .ninf, .inf => .ninf
  | .ninf, .ninf => .inf
  | .inf, .num b => if b = 0 then .nan else if 0 < b then .inf else .ninf
  | .num a, .inf => if a = 0 then .nan else if 0 < a then .inf else .ninf
  | .ninf, .num b => if b = 0 then .nan else if 0 < b then .ninf else .inf
  | .num a, .ninf => if a = 0 then .nan else if 0 < a then .ninf else .inf

/-- JS division (`0 / 0 = NaN`, `a / 0 = ±Infinity` for `a ≠ 0`). -/
def jdiv : JSNum → JSNum → JSNum
  | .num a, .num b =>
      if b = 0 then (if a = 0 then .nan else if 0 < a then .inf else .ninf)
      else .num (a / b)
  | .nan, _ => .nan
  | _, .nan => .nan
  | .inf, .inf => .nan
  | .inf, .ninf => .nan
  | .ninf, .inf => .nan
  | .ninf, .ninf => .nan
  | .inf, .num b => if 0 ≤ b then .inf else .ninf
  | .ninf, .num b => if 0 ≤ b then .ninf else .inf
  | .num _, .inf => .num 0
  | .num _, .ninf => .num 0

/-- JS `<` (any comparison with `NaN` is false). -/
def jlt : JSNum → JSNum → Bool
  | .nan, _ => false
  | _, .nan => false
  | .num a, .num b => decide (a < b)
  | .inf, _ => false
  | _, .inf => true
  | _, .ninf => false
  | .ninf, _ => true

/-- JS `Math.abs`. -/
def jabs : JSNum → JSNum
  | .nan => .nan
  | .inf => .inf
  | .ninf => .inf
  | .num q => .num |q|

/-- The trend classification labels. -/
inductive Trend where
  | increasing : Trend
  | decreasing : Trend
  | stable : Trend
deriving DecidableEq

/-- The full statistics record computed by the NDVI and aerosol handlers.
The handlers also compute `stdDev = Math.sqrt(variance)`; the square root of a
rational is not rational, so the record carries `variance` (`stdDev` is `NaN`
exactly when `variance` is, and is determined by it). -/
structure StatsFull where
  mean : JSNum
  vmin : JSNum
  vmax : JSNum
  variance : JSNum
  slope : JSNum
  trendPct : JSNum
  trend : Trend
deriving DecidableEq

/-! The statistics block of the handlers (lines 82–93 of get-ndvi plus the
trend classification of the response object), on the series values, split into
one named definition per intermediate constant of the block.  `reduce` is
`foldl`, the `for` loop over `i` is a fold over `values.enum`. -/

/-- `values.reduce((a, b) => a + b, 0)`. -/
def codeSum (values : List ℚ) : ℚ := values.foldl (· + ·) 0

/-- `mean = values.reduce((a, b) => a + b, 0) / values.length` (JS: `0/0 = NaN`
on the empty series). -/
def codeMean (values : List ℚ) : JSNum :=
  jdiv (.num (codeSum values)) (.num values.length)

/-- `Math.min(...values)` (JS: `Infinity` on the empty series). -/
def codeMin (values : List ℚ) : JSNum :=
  match values with
  | [] => .inf
  | x :: xs => .num (xs.foldl (fun a b => Min.min a b) x)

/-- `Math.max(...values)` (JS: `-Infinity` on the empty series). -/
def codeMax (values : List ℚ) : JSNum :=
  match values with
  | [] => .ninf
  | x :: xs => .num (xs.foldl (fun a b => Max.max a b) x)

/-- `variance = values.reduce((sum, val) => sum + Math.pow(val - mean, 2), 0) / values.length`. -/
def codeVariance (values : List ℚ) : JSNum :=
  jdiv (values.foldl
      (fun acc v => jadd acc (jmul (jsub (.num v) (codeMean values)) (jsub (.num v) (codeMean values))))
      (.num 0))
    (.num values.length)

/-- `xMean = (n - 1) / 2`. -/
def codeXMean (values : List ℚ) : ℚ := ((values.length : ℚ) - 1) / 2

/-- The accumulated `num` of the slope loop: `num += (i - xMean) * (values[i] - mean)`. -/
def codeNum (values : List ℚ) : JSNum :=
  values.enum.foldl
    (fun acc p => jadd acc (jmul (.num ((p.1 : ℚ) - codeXMean values)) (jsub (.num p.2) (codeMean values))))
    (.num 0)

/-- The accumulated `den` of the slope loop: `den += (i - xMean) ** 2`
(a plain finite number, independent of `mean`). -/
def codeDen (values : List ℚ) : ℚ :=
  values.enum.foldl (fun acc p => acc + ((p.1 : ℚ) - codeXMean values) ^ 2) 0

/-- `slope = den !== 0 ? num / den : 0`. -/
def codeSlope (values : List ℚ) : JSNum :=
  if codeDen values ≠ 0 then jdiv (codeNum values) (.num (codeDen values)) else .num 0

/-- `trendPct = mean !== 0 ? ((slope * n) / mean) * 100 : 0`. -/
def codeTrendPct (values : List ℚ) : JSNum :=
  if codeMean values ≠ JSNum.num 0 then
    jmul (jdiv (jmul (codeSlope values) (.num values.length)) (codeMean values)) (.num 100)
  else .num 0

/-- `Math.abs(trendPct) < 2 ? 'stable' : trendPct > 0 ? 'increasing' : 'decreasing'`. -/
def codeTrend (values : List ℚ) : Trend :=
  if jlt (jabs (codeTrendPct values)) (.num 2) then .stable
  else if jlt (.num 0) (codeTrendPct values) then .increasing else .decreasing

/-- The full statistics record of the NDVI / aerosol handlers. -/
def computeStats (values : List ℚ) : StatsFull :=
  { mean := codeMean values, vmin := codeMin values, vmax := codeMax values,
    variance := codeVariance values, slope := codeSlope values,
    trendPct := codeTrendPct values, trend := codeTrend values }

/-- The reduced statistics of the NO2 / SO2 / CO handlers: only
`mean`, `min`, `max` are computed for the response. -/
structure StatsBasic where
  mean : JSNum
  vmin : JSNum
  vmax : JSNum
deriving DecidableEq

/-- The statistics block of the NO2 / SO2 / CO handlers. -/
def computeStatsBasic (values : List ℚ) : StatsBasic :=
  { mean := codeMean values, vmin := codeMin values, vmax := codeMax values }

/-! ## Request handlers

Each per-point handler, after the (modelled-away) `typeof` check on the
numeric inputs, rejects out-of-box coordinates with HTTP 400 and otherwise
returns the success payload.  The JSON stats object of the success responses
applies `toFixed` rounding to the engine values; the payload here carries the
engine statistics, and the *keys* of each handler's stats object are recorded
separately below. -/

/-- A handler response: HTTP 400 with the bounding box, or HTTP 200 with a
payload. -/
inductive Resp (π : Type) where
  | outOfBounds : GeoBounds → Resp π
  | ok : π → Resp π
deriving DecidableEq

/-- The HTTP status of a response. -/
def respStatus {π : Type} : Resp π → ℕ
  | .outOfBounds _ => 400
  | .ok _ => 200

/-- Success payload of the NDVI / aerosol handlers. -/
structure PayloadFull where
  timeSeries : List TSPoint
  stats : StatsFull
deriving DecidableEq

/-- Success payload of the NO2 / SO2 / CO handlers. -/
structure PayloadBasic where
  timeSeries : List TSPoint
  stats : StatsBasic
deriving DecidableEq

/-- The get-ndvi request handler. -/
def ndviHandler (jsin : ℚ → ℚ) (lat lon : ℚ) (startYear endYear : ℤ) :
    Resp PayloadFull :=
  if isInsidePakistan lat lon then
    let ts := generateDeterministicNDVI jsin lat lon startYear endYear
    .ok { timeSeries := ts, stats := computeStats (ts.map (·.value)) }
  else .outOfBounds PAKISTAN_BOUNDS

/-- The aerosol-index request handler. -/
def aiHandler (jsin : ℚ → ℚ) (lat lon : ℚ) (startYear endYear : ℤ) :
    Resp PayloadFull :=
  if isInsidePakistan lat lon then
    let ts := generateAerosolIndex jsin lat lon startYear endYear
    .ok { timeSeries := ts, stats := computeStats (ts.map (·.value)) }
  else .outOfBounds PAKISTAN_BOUNDS

/-- The get-no2 request handler (takes the ambient `Math.random()` stream). -/
def no2Handler (jsin : ℚ → ℚ) (rand : ℕ → ℚ) (lat lon : ℚ)
    (startYear endYear : ℤ) : Resp PayloadBasic :=
  if isInsidePakistan lat lon then
    let ts := generateNO2 jsin rand lat lon startYear endYear
    .ok { timeSeries := ts, stats := computeStatsBasic (ts.map (·.value)) }
  else .outOfBounds PAKISTAN_BOUNDS

/-- The get-so2 request handler. -/
def so2Handler (jsin : ℚ → ℚ) (lat lon : ℚ) (startYear endYear : ℤ) :
    Resp PayloadBasic :=
  if isInsidePakistan lat lon then
    let ts := generateSO2 jsin lat lon startYear endYear
    .ok { timeSeries := ts, stats := computeStatsBasic (ts.map (·.value)) }
  else .outOfBounds PAKISTAN_BOUNDS

/-- The get-co request handler. -/
def coHandler (jsin : ℚ → ℚ) (lat lon : ℚ) (startYear endYear : ℤ) :
    Resp PayloadBasic :=
  if isInsidePakistan lat lon then
    let ts := generateCO jsin lat lon startYear endYear
    .ok { timeSeries := ts, stats := computeStatsBasic (ts.map (·.value)) }
  else .outOfBounds PAKISTAN_BOUNDS

/-! ## The stats-object keys of each handler's success response -/

/-- Keys of the `stats` object in the get-ndvi success response. -/
def ndviStatsFields : List String :=
  ["mean", "min", "max", "stdDev", "trend", "trendPercent"]

/-- Keys of the `stats` object in the aerosol-index success response. -/
def aiStatsFields : List String :=
  ["mean", "min", "max", "stdDev", "trend", "trendPercent"]

/-- Keys of the `stats` object in the get-no2 success response. -/
def no2StatsFields : List String := ["mean", "min", "max"]

/-- Keys of the `stats` object in the get-so2 success response. -/
def so2StatsFields : List String := ["mean", "min", "max"]

/-- Keys of the `stats` object in the get-co success response. -/
def coStatsFields : List String := ["mean", "min", "max"]

/-- The six fields of the `Statistics` shape declared by the client types
module (`AnalysisResult.stats`). -/
def statisticsShapeFields : List String :=
  ["mean", "min", "max", "stdDev", "trend", "trendPercent"]

/-- The declared NDVI/NO2/… numeric ranges of the client parameter table
(`PARAMETERS` in the shared types module): `min`/`max` per parameter. -/
structure PRange where
  min : ℚ
  max : ℚ
deriving DecidableEq

/-- `PARAMETERS.NO2` declared range: `min: 0, max: 0.0003` (unit `mol/m²`). -/
def PARAMETERS_NO2_range : PRange := { min := 0, max := 0.0003 }

/-! ## Spec-side statistics formulas (§4.5 of the specification)

These definitions follow the *specification's words*, to be compared with
`computeStats` above: mean/min/max/stdDev the standard population formulas
over the values; the trend slope the centered ordinary-least-squares slope of
value against 0-based index with `xMean = (n-1)/2`;
`trendPercent = (slope * n / mean) * 100` when the mean is nonzero, else 0;
`stable` exactly when `|trendPercent| < 2`, otherwise by the sign. -/

/-- Spec: population mean. -/
def specMean (l : List ℚ) : ℚ := l.sum / l.length

/-- Spec: minimum of the values (0 on the empty list, unused there). -/
def specMin (l : List ℚ) : ℚ :=
  match l with
  | [] => 0
  | x :: xs => xs.foldl (fun a b => Min.min a b) x

/-- Spec: maximum of the values (0 on the empty list, unused there). -/
def specMax (l : List ℚ) : ℚ :=
  match l with
  | [] => 0
  | x :: xs => xs.foldl (fun a b => Max.max a b) x

/-- Spec: population variance (mean squared deviation); the spec's `stdDev`
is its square root. -/
def specVariance (l : List ℚ) : ℚ :=
  ((l.map (fun v => (v - specMean l) ^ 2)).sum) / l.length

/-- Spec: centered OLS numerator `Σ (i - xMean) * (yᵢ - mean)`. -/
def specSlopeNum (l : List ℚ) : ℚ :=
  ((l.enum.map (fun p => ((p.1 : ℚ) - ((l.length : ℚ) - 1) / 2) * (p.2 - specMean l))).sum)

/-- Spec: centered OLS denominator `Σ (i - xMean) ^ 2`. -/
def specSlopeDen (l : List ℚ) : ℚ :=
  ((l.enum.map (fun p => ((p.1 : ℚ) - ((l.length : ℚ) - 1) / 2) ^ 2)).sum)

/-- Spec: the OLS slope of value against 0-based index (in `ℚ`, division by a
zero denominator yields 0, matching the code's explicit guard). -/
def specSlope (l : List ℚ) : ℚ := specSlopeNum l / specSlopeDen l

/-- Spec: `trendPercent = (slope * n / mean) * 100` when `mean ≠ 0`, else 0. -/
def specTrendPct (l : List ℚ) : ℚ :=
  if specMean l ≠ 0 then specSlope l * (l.length : ℚ) / specMean l * 100 else 0

/-- Spec: `stable` iff `|trendPercent| < 2`, else by the sign. -/
def specTrend (l : List ℚ) : Trend :=
  if |specTrendPct l| < 2 then .stable
  else if 0 < specTrendPct l then .increasing else .decreasing

/-! ## Helper lemmas -/

@[simp] lemma jadd_num (a b : ℚ) : jadd (.num a) (.num b) = .num (a + b) := rfl

@[simp] lemma jsub_num (a b : ℚ) : jsub (.num a) (.num b) = .num (a - b) := rfl

@[simp] lemma jmul_num (a b : ℚ) : jmul (.num a) (.num b) = .num (a * b) := rfl

lemma jdiv_num {b : ℚ} (a : ℚ) (hb : b ≠ 0) : jdiv (.num a) (.num b) = .num (a / b) := by
  simp [jdiv, hb]

@[simp] lemma jlt_num (a b : ℚ) : jlt (.num a) (.num b) = decide (a < b) := rfl

@[simp] lemma jabs_num (a : ℚ) : jabs (.num a) = .num |a| := rfl

lemma seededRandom_nonneg (jsin : ℚ → ℚ) (s : ℚ) : 0 ≤ seededRandom jsin s := by
  unfold seededRandom
  exact sub_nonneg.2 (Int.floor_le _)

lemma seededRandom_lt_one (jsin : ℚ → ℚ) (s : ℚ) : seededRandom jsin s < 1 := by
  show jsin (s * 9301 + 49297) * 49297 - ⌊jsin (s * 9301 + 49297) * 49297⌋ < 1
  have h := Int.lt_floor_add_one (jsin (s * 9301 + 49297) * 49297)
  linarith

lemma round_mono_q {a b : ℚ} (h : a ≤ b) : round a ≤ round b := by
  rw [round_eq, round_eq]
  exact Int.floor_mono (by linarith)

lemma toFixed4_mono {a b : ℚ} (h : a ≤ b) : toFixed4 a ≤ toFixed4 b := by
  unfold toFixed4
  have h1 : round (a * 10000) ≤ round (b * 10000) :=
    round_mono_q (by nlinarith)
  have h2 : ((round (a * 10000) : ℤ) : ℚ) ≤ ((round (b * 10000) : ℤ) : ℚ) := by
    exact_mod_cast h1
  linarith

/-- `toFixed4` fixes rationals with at most four decimal places. -/
lemma toFixed4_fix {q : ℚ} {k : ℤ} (hk : q * 10000 = (k : ℚ)) : toFixed4 q = q := by
  unfold toFixed4
  rw [hk, round_intCast]
  field_simp at hk ⊢
  linarith

lemma clamp_low {a b x : ℚ} : a ≤ max a (min b x) := le_max_left _ _

lemma clamp_high {a b x : ℚ} (hab : a ≤ b) : max a (min b x) ≤ b :=
  max_le hab (min_le_left _ _)

/-! ### Correctness of the five-significant-digit rounding model -/

lemma decExpNat_correct :
    ∀ fuel n, 1 ≤ n → n ≤ fuel →
      10 ^ decExpNat fuel n ≤ n ∧ n < 10 ^ (decExpNat fuel n + 1) := by
  intro fuel
  induction fuel with
  | zero => intro n h1 h2; omega
  | succ f ih =>
    intro n h1 h2
    by_cases hn : n < 10
    · simp [decExpNat, hn]
      omega
    · have hrec := ih (n / 10) (by omega) (by omega)
      simp only [decExpNat, hn, if_false]
      constructor
      · calc 10 ^ (decExpNat f (n / 10) + 1) = 10 ^ decExpNat f (n / 10) * 10 := by ring
        _ ≤ n / 10 * 10 := by exact Nat.mul_le_mul_right 10 hrec.1
        _ ≤ n := by omega
      · calc n < (n / 10) * 10 + 10 := by omega
        _ ≤ (10 ^ (decExpNat f (n / 10) + 1) - 1) * 10 + 10 := by
              have : n / 10 + 1 ≤ 10 ^ (decExpNat f (n / 10) + 1) := hrec.2
              have h10 : n / 10 ≤ 10 ^ (decExpNat f (n / 10) + 1) - 1 := by omega
              exact Nat.add_le_add_right (Nat.mul_le_mul_right 10 h10) 10
        _ = 10 ^ (decExpNat f (n / 10) + 1) * 10 := by
              have : 1 ≤ 10 ^ (decExpNat f (n / 10) + 1) := Nat.one_le_pow _ _ (by omega)
              omega
        _ = 10 ^ (decExpNat f (n / 10) + 1 + 1) := by ring

lemma decExp_nonneg (q : ℚ) : 0 ≤ decExp q := by
  unfold decExp; positivity

lemma decExp_correct {q : ℚ} (hq : 1 ≤ q) :
    (10 : ℚ) ^ decExp q ≤ q ∧ q < (10 : ℚ) ^ (decExp q + 1) := by
  have hfl : 1 ≤ ⌊q⌋ := by
    have := Int.le_floor.2 (by exact_mod_cast hq : ((1 : ℤ) : ℚ) ≤ q)
    omega
  set n : ℕ := (⌊q⌋).toNat with hn
  have hn1 : 1 ≤ n := by omega
  have hcast : ((n : ℤ) : ℚ) = ((⌊q⌋ : ℤ) : ℚ) := by
    congr 1
    omega
  have hnq : (n : ℚ) ≤ q := by
    rw [show ((n : ℚ)) = ((n : ℤ) : ℚ) by push_cast; ring, hcast]
    exact Int.floor_le q
  have hqn : q < (n : ℚ) + 1 := by
    rw [show ((n : ℚ)) = ((n : ℤ) : ℚ) by push_cast; ring, hcast]
    exact Int.lt_floor_add_one q
  obtain ⟨hlo, hhi⟩ := decExpNat_correct n n hn1 le_rfl
  have he : decExp q = ((decExpNat n n : ℕ) : ℤ) := by
    unfold decExp; rw [← hn]
  constructor
  · rw [he, zpow_natCast]
    calc ((10 : ℚ) ^ decExpNat n n) = ((10 ^ decExpNat n n : ℕ) : ℚ) := by push_cast; ring
    _ ≤ (n : ℚ) := by exact_mod_cast hlo
    _ ≤ q := hnq
  · rw [he]
    have : ((decExpNat n n : ℕ) : ℤ) + 1 = ((decExpNat n n + 1 : ℕ) : ℤ) := by push_cast; ring
    rw [this, zpow_natCast]
    calc q < (n : ℚ) + 1 := hqn
    _ ≤ ((10 ^ (decExpNat n n + 1) : ℕ) : ℚ) := by exact_mod_cast hhi
    _ = (10 : ℚ) ^ (decExpNat n n + 1) := by push_cast; ring

lemma decExp_mono {x y : ℚ} (hx : 1 ≤ x) (hxy : x ≤ y) : decExp x ≤ decExp y := by
  obtain ⟨hx1, _⟩ := decExp_correct hx
  obtain ⟨_, hy2⟩ := decExp_correct (le_trans hx hxy)
  by_contra hcon
  push_neg at hcon
  have hle : decExp y + 1 ≤ decExp x := by omega
  have := zpow_le_zpow_right₀ (by norm_num : (1 : ℚ) ≤ 10) hle
  linarith

lemma texp4_bounds {q : ℚ} (hq : 1 ≤ q) :
    (10 : ℚ) ^ decExp q ≤ toExponential4 q ∧
      toExponential4 q ≤ (10 : ℚ) ^ (decExp q + 1) := by
  obtain ⟨hlo, hhi⟩ := decExp_correct hq
  set e := decExp q with he
  have hc : (0 : ℚ) < (10 : ℚ) ^ (e - 4) := zpow_pos (by norm_num) _
  have hql : (10 : ℚ) ^ (4 : ℤ) ≤ q / (10 : ℚ) ^ (e - 4) := by
    rw [le_div_iff₀ hc, ← zpow_add₀ (by norm_num : (10 : ℚ) ≠ 0)]
    simpa using hlo
  have hqh : q / (10 : ℚ) ^ (e - 4) ≤ (10 : ℚ) ^ (5 : ℤ) := by
    rw [div_le_iff₀ hc, ← zpow_add₀ (by norm_num : (10 : ℚ) ≠ 0)]
    have : (5 : ℤ) + (e - 4) = e + 1 := by omega
    rw [this]
    linarith
  have hr4 : (10 : ℚ) ^ (4 : ℤ) = ((10000 : ℤ) : ℚ) := by norm_num
  have hr5 : (10 : ℚ) ^ (5 : ℤ) = ((100000 : ℤ) : ℚ) := by norm_num
  have hroundl : (10000 : ℤ) ≤ round (q / (10 : ℚ) ^ (e - 4)) := by
    have := round_mono_q (hr4 ▸ hql)
    rwa [round_intCast] at this
  have hroundh : round (q / (10 : ℚ) ^ (e - 4)) ≤ (100000 : ℤ) := by
    have := round_mono_q (hr5 ▸ hqh)
    rwa [round_intCast] at this
  constructor
  · show (10 : ℚ) ^ e ≤ (round (q / (10 : ℚ) ^ (e - 4)) : ℚ) * (10 : ℚ) ^ (e - 4)
    calc (10 : ℚ) ^ e = ((10000 : ℤ) : ℚ) * (10 : ℚ) ^ (e - 4) := by
          rw [show ((10000 : ℤ) : ℚ) = (10 : ℚ) ^ (4 : ℤ) by norm_num,
            ← zpow_add₀ (by norm_num : (10 : ℚ) ≠ 0)]
          norm_num
    _ ≤ (round (q / (10 : ℚ) ^ (e - 4)) : ℚ) * (10 : ℚ) ^ (e - 4) := by
          have : ((10000 : ℤ) : ℚ) ≤ (round (q / (10 : ℚ) ^ (e - 4)) : ℚ) := by
            exact_mod_cast hroundl
          exact mul_le_mul_of_nonneg_right this hc.le
  · show (round (q / (10 : ℚ) ^ (e - 4)) : ℚ) * (10 : ℚ) ^ (e - 4) ≤ (10 : ℚ) ^ (e + 1)
    calc (round (q / (10 : ℚ) ^ (e - 4)) : ℚ) * (10 : ℚ) ^ (e - 4)
        ≤ ((100000 : ℤ) : ℚ) * (10 : ℚ) ^ (e - 4) := by
          have : (round (q / (10 : ℚ) ^ (e - 4)) : ℚ) ≤ ((100000 : ℤ) : ℚ) := by
            exact_mod_cast hroundh
          exact mul_le_mul_of_nonneg_right this hc.le
    _ = (10 : ℚ) ^ (e + 1) := by
          rw [show ((100000 : ℤ) : ℚ) = (10 : ℚ) ^ (5 : ℤ) by norm_num,
            ← zpow_add₀ (by norm_num : (10 : ℚ) ≠ 0)]
          congr 1
          omega

lemma texp4_mono {x y : ℚ} (hx : 1 ≤ x) (hxy : x ≤ y) :
    toExponential4 x ≤ toExponential4 y := by
  rcases lt_or_eq_of_le (decExp_mono hx hxy) with hlt | heq
  · calc toExponential4 x ≤ (10 : ℚ) ^ (decExp x + 1) := (texp4_bounds hx).2
    _ ≤ (10 : ℚ) ^ decExp y :=
        zpow_le_zpow_right₀ (by norm_num) (by omega)
    _ ≤ toExponential4 y := (texp4_bounds (le_trans hx hxy)).1
  · unfold toExponential4
    rw [← heq]
    have hc : (0 : ℚ) < (10 : ℚ) ^ (decExp x - 4) := zpow_pos (by norm_num) _
    have hdiv : x / (10 : ℚ) ^ (decExp x - 4) ≤ y / (10 : ℚ) ^ (decExp x - 4) := by
      gcongr
    have hr := round_mono_q hdiv
    have hrc : ((round (x / (10 : ℚ) ^ (decExp x - 4)) : ℤ) : ℚ) ≤
        ((round (y / (10 : ℚ) ^ (decExp x - 4)) : ℤ) : ℚ) := by exact_mod_cast hr
    exact mul_le_mul_of_nonneg_right hrc hc.le

/-- Concrete sine model: constantly zero (within the range of a sine). -/
def jsin0 : ℚ → ℚ := fun _ => 0

/-- Concrete sine model whose values separate distinct arguments. -/
def jsinSep : ℚ → ℚ := fun q => 1 / (1 + |q|)

/-- Concrete `Math.random()` stream: constantly 0. -/
def randZero : ℕ → ℚ := fun _ => 0

/-- Concrete `Math.random()` stream: constantly 1/2. -/
def randHalf : ℕ → ℚ := fun _ => 1 / 2

/-! ### The boundary predicate, unfolded -/

lemma isInsidePakistan_iff {lat lon : ℚ} :
    isInsidePakistan lat lon = true ↔
      (23.5 ≤ lat ∧ lat ≤ 37.1 ∧ 60.9 ≤ lon ∧ lon ≤ 77.5) := by
  simp [isInsidePakistan, PAKISTAN_BOUNDS]

/-! ### Structural lemmas about the generators -/

lemma yearsList_mem {s e y : ℤ} : y ∈ yearsList s e ↔ s ≤ y ∧ y ≤ e := by
  simp only [yearsList, List.mem_map, List.mem_range]
  constructor
  · rintro ⟨i, hi, rfl⟩
    omega
  · rintro ⟨h1, h2⟩
    exact ⟨(y - s).toNat, by omega, by omega⟩

lemma yearsList_nil {s e : ℤ} (h : e < s) : yearsList s e = [] := by
  unfold yearsList
  rw [show (e + 1 - s).toNat = 0 by omega]
  rfl

lemma monthsList_mem {m : ℕ} : m ∈ monthsList ↔ 1 ≤ m ∧ m ≤ 12 := by
  simp only [monthsList, List.mem_map, List.mem_range]
  constructor
  · rintro ⟨i, hi, rfl⟩
    omega
  · rintro ⟨h1, h2⟩
    exact ⟨m - 1, by omega, by omega⟩

lemma yearsList_pairwise (s e : ℤ) : (yearsList s e).Pairwise (· < ·) := by
  unfold yearsList
  exact (List.pairwise_lt_range _).map _ (fun a b h => by omega)

lemma monthsList_pairwise : monthsList.Pairwise (· < ·) := by
  unfold monthsList
  exact (List.pairwise_lt_range _).map _ (fun a b h => by omega)

lemma monthlyDates_pairwise (s e : ℤ) : (monthlyDates s e).Pairwise dateLt := by
  unfold monthlyDates
  rw [List.pairwise_flatMap]
  refine ⟨fun y _ => ?_, ?_⟩
  · exact monthsList_pairwise.map _ (fun a b h => Or.inr ⟨rfl, h⟩)
  · refine (yearsList_pairwise s e).imp ?_
    intro y y' hyy x hx z hz
    simp only [List.mem_map] at hx hz
    obtain ⟨m, _, rfl⟩ := hx
    obtain ⟨m', _, rfl⟩ := hz
    exact Or.inl hyy

lemma monthlyDates_mem {s e y : ℤ} {m : ℕ} :
    (y, m) ∈ monthlyDates s e ↔ (s ≤ y ∧ y ≤ e ∧ 1 ≤ m ∧ m ≤ 12) := by
  simp only [monthlyDates, List.mem_flatMap, List.mem_map, Prod.mk.injEq]
  constructor
  · rintro ⟨y', hy', m', hm', rfl, rfl⟩
    exact ⟨(yearsList_mem.1 hy').1, (yearsList_mem.1 hy').2,
      (monthsList_mem.1 hm').1, (monthsList_mem.1 hm').2⟩
  · rintro ⟨h1, h2, h3, h4⟩
    exact ⟨y, yearsList_mem.2 ⟨h1, h2⟩, m, monthsList_mem.2 ⟨h3, h4⟩, rfl, rfl⟩

lemma flatMap_months_length {β : Type} (f : ℤ → ℕ → β) (l : List ℤ) :
    (l.flatMap (fun y => monthsList.map (f y))).length = 12 * l.length := by
  induction l with
  | nil => rfl
  | cons a l ih =>
    simp only [List.flatMap_cons, List.length_append, List.length_map, ih, List.length_cons]
    simp [monthsList]
    ring

lemma monthlyDates_length (s e : ℤ) :
    (monthlyDates s e).length = 12 * (e - s + 1).toNat := by
  unfold monthlyDates
  rw [flatMap_months_length]
  unfold yearsList
  rw [List.length_map, List.length_range]
  congr 1
  omega

lemma generateDeterministicNDVI_map_date (jsin : ℚ → ℚ) (lat lon : ℚ) (s e : ℤ) :
    (generateDeterministicNDVI jsin lat lon s e).map TSPoint.date = monthlyDates s e := by
  simp only [generateDeterministicNDVI, monthlyDates, List.map_flatMap, List.map_map]
  rfl

lemma generateAerosolIndex_map_date (jsin : ℚ → ℚ) (lat lon : ℚ) (s e : ℤ) :
    (generateAerosolIndex jsin lat lon s e).map TSPoint.date = monthlyDates s e := by
  simp only [generateAerosolIndex, monthlyDates, List.map_flatMap, List.map_map]
  rfl

lemma generateSO2_map_date (jsin : ℚ → ℚ) (lat lon : ℚ) (s e : ℤ) :
    (generateSO2 jsin lat lon s e).map TSPoint.date = monthlyDates s e := by
  simp only [generateSO2, monthlyDates, List.map_flatMap, List.map_map]
  rfl

lemma generateCO_map_date (jsin : ℚ → ℚ) (lat lon : ℚ) (s e : ℤ) :
    (generateCO jsin lat lon s e).map TSPoint.date = monthlyDates s e := by
  simp only [generateCO, monthlyDates, List.map_flatMap, List.map_map]
  rfl

lemma generateNO2_map_date (jsin : ℚ → ℚ) (rand : ℕ → ℚ) (lat lon : ℚ) (s e : ℤ) :
    (generateNO2 jsin rand lat lon s e).map TSPoint.date = monthlyDates s e := by
  simp only [generateNO2, monthlyDates, List.map_flatMap, List.map_map]
  rfl

lemma mem_generateDeterministicNDVI {jsin : ℚ → ℚ} {lat lon : ℚ} {s e : ℤ} {p : TSPoint} :
    p ∈ generateDeterministicNDVI jsin lat lon s e ↔
      ∃ y m, y ∈ yearsList s e ∧ m ∈ monthsList ∧
        p = ndviPoint jsin (ndviRegionParams lat lon) (locationSeed lat lon) s y m := by
  simp only [generateDeterministicNDVI, List.mem_flatMap, List.mem_map]
  constructor
  · rintro ⟨y, hy, m, hm, rfl⟩
    exact ⟨y, m, hy, hm, rfl⟩
  · rintro ⟨y, m, hy, hm, rfl⟩
    exact ⟨y, hy, m, hm, rfl⟩

lemma mem_generateAerosolIndex {jsin : ℚ → ℚ} {lat lon : ℚ} {s e : ℤ} {p : TSPoint} :
    p ∈ generateAerosolIndex jsin lat lon s e ↔
      ∃ y m, y ∈ yearsList s e ∧ m ∈ monthsList ∧
        p = aiPoint jsin (aiRegionParams lat lon) (locationSeed lat lon) y m := by
  simp only [generateAerosolIndex, List.mem_flatMap, List.mem_map]
  constructor
  · rintro ⟨y, hy, m, hm, rfl⟩
    exact ⟨y, m, hy, hm, rfl⟩
  · rintro ⟨y, m, hy, hm, rfl⟩
    exact ⟨y, hy, m, hm, rfl⟩

lemma mem_generateSO2 {jsin : ℚ → ℚ} {lat lon : ℚ} {s e : ℤ} {p : TSPoint} :
    p ∈ generateSO2 jsin lat lon s e ↔
      ∃ y m, y ∈ yearsList s e ∧ m ∈ monthsList ∧
        p = so2Point jsin (so2Base lat lon) (locationSeed lat lon) y m := by
  simp only [generateSO2, List.mem_flatMap, List.mem_map]
  constructor
  · rintro ⟨y, hy, m, hm, rfl⟩
    exact ⟨y, m, hy, hm, rfl⟩
  · rintro ⟨y, m, hy, hm, rfl⟩
    exact ⟨y, hy, m, hm, rfl⟩

lemma mem_generateCO {jsin : ℚ → ℚ} {lat lon : ℚ} {s e : ℤ} {p : TSPoint} :
    p ∈ generateCO jsin lat lon s e ↔
      ∃ y m, y ∈ yearsList s e ∧ m ∈ monthsList ∧
        p = coPoint jsin (coBase lat lon) (locationSeed lat lon) y m := by
  simp only [generateCO, List.mem_flatMap, List.mem_map]
  constructor
  · rintro ⟨y, hy, m, hm, rfl⟩
    exact ⟨y, m, hy, hm, rfl⟩
  · rintro ⟨y, m, hy, hm, rfl⟩
    exact ⟨y, hy, m, hm, rfl⟩

lemma mem_generateNO2 {jsin : ℚ → ℚ} {rand : ℕ → ℚ} {lat lon : ℚ} {s e : ℤ} {p : TSPoint} :
    p ∈ generateNO2 jsin rand lat lon s e ↔
      ∃ y m, y ∈ yearsList s e ∧ m ∈ monthsList ∧
        p = no2Point jsin rand (no2Base lat lon) s y m := by
  simp only [generateNO2, List.mem_flatMap, List.mem_map]
  constructor
  · rintro ⟨y, hy, m, hm, rfl⟩
    exact ⟨y, m, hy, hm, rfl⟩
  · rintro ⟨y, m, hy, hm, rfl⟩
    exact ⟨y, hy, m, hm, rfl⟩

/-! ### Congruence: the seeded generators depend on the location only through
the region data and the rounded location seed -/

lemma generateDeterministicNDVI_congr {jsin : ℚ → ℚ} {lat lon lat' lon' : ℚ} {s e : ℤ}
    (h1 : ndviRegionParams lat lon = ndviRegionParams lat' lon')
    (h2 : locationSeed lat lon = locationSeed lat' lon') :
    generateDeterministicNDVI jsin lat lon s e = generateDeterministicNDVI jsin lat' lon' s e := by
  unfold generateDeterministicNDVI
  rw [h1, h2]

lemma generateAerosolIndex_congr {jsin : ℚ → ℚ} {lat lon lat' lon' : ℚ} {s e : ℤ}
    (h1 : aiRegionParams lat lon = aiRegionParams lat' lon')
    (h2 : locationSeed lat lon = locationSeed lat' lon') :
    generateAerosolIndex jsin lat lon s e = generateAerosolIndex jsin lat' lon' s e := by
  unfold generateAerosolIndex
  rw [h1, h2]

lemma generateSO2_congr {jsin : ℚ → ℚ} {lat lon lat' lon' : ℚ} {s e : ℤ}
    (h1 : so2Base lat lon = so2Base lat' lon')
    (h2 : locationSeed lat lon = locationSeed lat' lon') :
    generateSO2 jsin lat lon s e = generateSO2 jsin lat' lon' s e := by
  unfold generateSO2
  rw [h1, h2]

lemma generateCO_congr {jsin : ℚ → ℚ} {lat lon lat' lon' : ℚ} {s e : ℤ}
    (h1 : coBase lat lon = coBase lat' lon')
    (h2 : locationSeed lat lon = locationSeed lat' lon') :
    generateCO jsin lat lon s e = generateCO jsin lat' lon' s e := by
  unfold generateCO
  rw [h1, h2]

/-! ### Range and uncertainty-band bounds of the generated points -/

lemma toFixed4_clamp_bounds {a b : ℚ} (x : ℚ) {ka kb : ℤ}
    (hab : a ≤ b) (ha : a * 10000 = (ka : ℚ)) (hb : b * 10000 = (kb : ℚ)) :
    a ≤ toFixed4 (max a (min b x)) ∧ toFixed4 (max a (min b x)) ≤ b := by
  constructor
  · calc a = toFixed4 a := (toFixed4_fix ha).symm
    _ ≤ toFixed4 (max a (min b x)) := toFixed4_mono clamp_low
  · calc toFixed4 (max a (min b x)) ≤ toFixed4 b := toFixed4_mono (clamp_high hab)
    _ = b := toFixed4_fix hb

lemma ndviPoint_value_bounds (jsin : ℚ → ℚ) (params : ℚ × ℚ × ℚ) (locSeed : ℤ)
    (s y : ℤ) (m : ℕ) :
    -0.1 ≤ (ndviPoint jsin params locSeed s y m).value ∧
      (ndviPoint jsin params locSeed s y m).value ≤ 0.9 := by
  simp only [ndviPoint]
  exact toFixed4_clamp_bounds _ (by norm_num)
    (show (-0.1 : ℚ) * 10000 = ((-1000 : ℤ) : ℚ) by norm_num)
    (show (0.9 : ℚ) * 10000 = ((9000 : ℤ) : ℚ) by norm_num)

lemma aiPoint_value_bounds (jsin : ℚ → ℚ) (params : ℚ × ℚ) (locSeed : ℤ)
    (y : ℤ) (m : ℕ) :
    0 ≤ (aiPoint jsin params locSeed y m).value ∧
      (aiPoint jsin params locSeed y m).value ≤ 5 := by
  simp only [aiPoint]
  exact toFixed4_clamp_bounds _ (by norm_num)
    (show (0 : ℚ) * 10000 = ((0 : ℤ) : ℚ) by norm_num)
    (show (5 : ℚ) * 10000 = ((50000 : ℤ) : ℚ) by norm_num)

lemma so2Point_value_bounds (jsin : ℚ → ℚ) (base : ℚ) (locSeed : ℤ)
    (y : ℤ) (m : ℕ) :
    0.01 ≤ (so2Point jsin base locSeed y m).value ∧
      (so2Point jsin base locSeed y m).value ≤ 1.5 := by
  simp only [so2Point]
  exact toFixed4_clamp_bounds _ (by norm_num)
    (show (0.01 : ℚ) * 10000 = ((100 : ℤ) : ℚ) by norm_num)
    (show (1.5 : ℚ) * 10000 = ((15000 : ℤ) : ℚ) by norm_num)

lemma coPoint_value_bounds (jsin : ℚ → ℚ) (base : ℚ) (locSeed : ℤ)
    (y : ℤ) (m : ℕ) :
    0.015 ≤ (coPoint jsin base locSeed y m).value ∧
      (coPoint jsin base locSeed y m).value ≤ 0.08 := by
  simp only [coPoint]
  exact toFixed4_clamp_bounds _ (by norm_num)
    (show (0.015 : ℚ) * 10000 = ((150 : ℤ) : ℚ) by norm_num)
    (show (0.08 : ℚ) * 10000 = ((800 : ℤ) : ℚ) by norm_num)

lemma toExponential4_1e14 : toExponential4 100000000000000 = 100000000000000 := by
  have h2 : decExp 100000000000000 = 14 := by
    have h1 : (⌊(100000000000000 : ℚ)⌋ : ℤ) = 100000000000000 := by norm_num
    unfold decExp
    rw [h1]
    decide
  unfold toExponential4
  rw [h2]
  norm_num [round_eq, Int.floor_eq_iff]

lemma no2Point_value_lower (jsin : ℚ → ℚ) (rand : ℕ → ℚ) (base : ℚ)
    (s y : ℤ) (m : ℕ) :
    100000000000000 ≤ (no2Point jsin rand base s y m).value := by
  simp only [no2Point]
  calc (100000000000000 : ℚ) = toExponential4 100000000000000 := toExponential4_1e14.symm
  _ ≤ toExponential4 (max 100000000000000 _) :=
      texp4_mono (by norm_num) (le_max_left _ _)

lemma ndviPoint_band (jsin : ℚ → ℚ) (params : ℚ × ℚ × ℚ) (locSeed : ℤ)
    (s y : ℤ) (m : ℕ) :
    (ndviPoint jsin params locSeed s y m).min ≤ (ndviPoint jsin params locSeed s y m).value ∧
      (ndviPoint jsin params locSeed s y m).value ≤ (ndviPoint jsin params locSeed s y m).max := by
  simp only [ndviPoint]
  have hr := seededRandom_nonneg jsin
    (((locSeed : ℚ) + (y : ℚ) * 13 + (m : ℚ) * 7) + 1)
  constructor
  · exact toFixed4_mono (by nlinarith)
  · exact toFixed4_mono (by nlinarith)

lemma aiPoint_band (jsin : ℚ → ℚ) (params : ℚ × ℚ) (locSeed : ℤ)
    (y : ℤ) (m : ℕ) :
    (aiPoint jsin params locSeed y m).min ≤ (aiPoint jsin params locSeed y m).value ∧
      (aiPoint jsin params locSeed y m).value ≤ (aiPoint jsin params locSeed y m).max := by
  simp only [aiPoint]
  have hr := seededRandom_nonneg jsin
    (((locSeed : ℚ) + (y : ℚ) * 13 + (m : ℚ) * 7) + 1)
  constructor
  · exact toFixed4_mono (by nlinarith)
  · exact toFixed4_mono (by nlinarith)

lemma so2Point_band (jsin : ℚ → ℚ) (base : ℚ) (locSeed : ℤ) (y : ℤ) (m : ℕ) :
    (so2Point jsin base locSeed y m).min ≤ (so2Point jsin base locSeed y m).value ∧
      (so2Point jsin base locSeed y m).value ≤ (so2Point jsin base locSeed y m).max := by
  simp only [so2Point]
  constructor
  · exact toFixed4_mono (by linarith)
  · exact toFixed4_mono (by linarith)

lemma coPoint_band (jsin : ℚ → ℚ) (base : ℚ) (locSeed : ℤ) (y : ℤ) (m : ℕ) :
    (coPoint jsin base locSeed y m).min ≤ (coPoint jsin base locSeed y m).value ∧
      (coPoint jsin base locSeed y m).value ≤ (coPoint jsin base locSeed y m).max := by
  simp only [coPoint]
  constructor
  · exact toFixed4_mono (by linarith)
  · exact toFixed4_mono (by linarith)

lemma no2Point_band (jsin : ℚ → ℚ) (rand : ℕ → ℚ) (base : ℚ) (s y : ℤ) (m : ℕ) :
    (no2Point jsin rand base s y m).min ≤ (no2Point jsin rand base s y m).value ∧
      (no2Point jsin rand base s y m).value ≤ (no2Point jsin rand base s y m).max := by
  simp only [no2Point]
  have hclamp : (100000000000000 : ℚ) ≤ max 100000000000000
      (base + base * 0.25 * jsin (monthRadians m + piq) +
        (if y = 2020 ∧ 3 ≤ m ∧ m ≤ 6 then -base * 0.3 else 0) +
        (rand ((y - s) * 12 + ((m : ℤ) - 1)).toNat - 0.5) * base * 0.15) :=
    le_max_left _ _
  set no2v : ℚ := max 100000000000000
      (base + base * 0.25 * jsin (monthRadians m + piq) +
        (if y = 2020 ∧ 3 ≤ m ∧ m ≤ 6 then -base * 0.3 else 0) +
        (rand ((y - s) * 12 + ((m : ℤ) - 1)).toNat - 0.5) * base * 0.15) with hno2v
  constructor
  · exact texp4_mono (by nlinarith) (by nlinarith)
  · exact texp4_mono (by nlinarith) (by nlinarith)

/-! ### The statistics block agrees with the spec formulas on nonempty series -/

lemma foldl_add_eq_sum (l : List ℚ) : ∀ q : ℚ, l.foldl (· + ·) q = q + l.sum := by
  induction l with
  | nil => intro q; simp
  | cons a l ih =>
    intro q
    simp only [List.foldl_cons, List.sum_cons, ih]
    ring

lemma foldl_addf_eq_sum {α : Type} (g : α → ℚ) (l : List α) :
    ∀ q : ℚ, l.foldl (fun acc x => acc + g x) q = q + (l.map g).sum := by
  induction l with
  | nil => intro q; simp
  | cons a l ih =>
    intro q
    simp only [List.foldl_cons, List.map_cons, List.sum_cons, ih]
    ring

@[simp] lemma foldl_jadd_eq_sum {α : Type} (g : α → ℚ) (l : List α) (q : ℚ) :
    l.foldl (fun acc x => jadd acc (.num (g x))) (.num q) = .num (q + (l.map g).sum) := by
  induction l generalizing q with
  | nil => simp
  | cons a l ih =>
    simp only [List.foldl_cons, jadd_num, ih, List.map_cons, List.sum_cons]
    ring_nf

lemma length_cast_ne_zero {l : List ℚ} (h : l ≠ []) : ((l.length : ℚ)) ≠ 0 := by
  simpa using h

lemma codeSum_eq (l : List ℚ) : codeSum l = l.sum := by
  unfold codeSum
  rw [foldl_add_eq_sum]
  ring

lemma codeMean_eq {l : List ℚ} (h : l ≠ []) : codeMean l = .num (specMean l) := by
  unfold codeMean specMean
  rw [codeSum_eq, jdiv_num _ (length_cast_ne_zero h)]

lemma codeMin_eq {l : List ℚ} (h : l ≠ []) : codeMin l = .num (specMin l) := by
  cases l with
  | nil => exact absurd rfl h
  | cons x xs => rfl

lemma codeMax_eq {l : List ℚ} (h : l ≠ []) : codeMax l = .num (specMax l) := by
  cases l with
  | nil => exact absurd rfl h
  | cons x xs => rfl

lemma codeVariance_eq {l : List ℚ} (h : l ≠ []) : codeVariance l = .num (specVariance l) := by
  unfold codeVariance specVariance
  rw [codeMean_eq h]
  simp only [jsub_num, jmul_num, foldl_jadd_eq_sum, zero_add]
  rw [jdiv_num _ (length_cast_ne_zero h)]
  have hfun : (fun x : ℚ => (x - specMean l) * (x - specMean l)) =
      fun v : ℚ => (v - specMean l) ^ 2 := by
    funext v
    ring
  rw [hfun]

lemma codeDen_eq (l : List ℚ) : codeDen l = specSlopeDen l := by
  unfold codeDen specSlopeDen codeXMean
  rw [foldl_addf_eq_sum]
  ring

lemma codeNum_eq {l : List ℚ} (h : l ≠ []) : codeNum l = .num (specSlopeNum l) := by
  unfold codeNum specSlopeNum codeXMean
  rw [codeMean_eq h]
  simp only [jsub_num, jmul_num, foldl_jadd_eq_sum, zero_add]

lemma codeSlope_eq {l : List ℚ} (h : l ≠ []) : codeSlope l = .num (specSlope l) := by
  unfold codeSlope specSlope
  rw [codeDen_eq, codeNum_eq h]
  by_cases hd : specSlopeDen l = 0
  · simp [hd]
  · simp only [hd, ne_eq, not_false_eq_true, if_true]
    rw [jdiv_num _ hd]

lemma codeTrendPct_eq {l : List ℚ} (h : l ≠ []) : codeTrendPct l = .num (specTrendPct l) := by
  unfold codeTrendPct specTrendPct
  rw [codeMean_eq h, codeSlope_eq h]
  by_cases hm : specMean l = 0
  · simp [hm]
  · rw [if_pos (by simpa using hm), if_pos hm, jmul_num, jdiv_num _ hm, jmul_num]

lemma codeTrend_eq {l : List ℚ} (h : l ≠ []) : codeTrend l = specTrend l := by
  unfold codeTrend specTrend
  rw [codeTrendPct_eq h]
  simp only [jabs_num, jlt_num, decide_eq_true_eq]

/-- The full statistics record of the handlers equals the spec formulas, on
nonempty series. -/
lemma computeStats_spec {l : List ℚ} (h : l ≠ []) :
    computeStats l =
      { mean := .num (specMean l), vmin := .num (specMin l), vmax := .num (specMax l),
        variance := .num (specVariance l), slope := .num (specSlope l),
        trendPct := .num (specTrendPct l), trend := specTrend l } := by
  unfold computeStats
  rw [codeMean_eq h, codeMin_eq h, codeMax_eq h, codeVariance_eq h, codeSlope_eq h,
    codeTrendPct_eq h, codeTrend_eq h]

/-! ### The statistics block on degenerate series -/

lemma computeStats_nil :
    (computeStats []).mean = .nan ∧ (computeStats []).trendPct = .nan ∧
      (computeStats []).trend = .decreasing := by
  refine ⟨?_, ?_, ?_⟩ <;>
    simp [computeStats, codeMean, codeSum, codeTrend, codeTrendPct, codeSlope, codeDen,
      codeNum, codeXMean, jdiv, jmul, jabs, jlt]

lemma codeDen_singleton (x : ℚ) : codeDen [x] = 0 := by
  unfold codeDen codeXMean
  simp [List.enum]

lemma codeMean_singleton (x : ℚ) : codeMean [x] = .num x := by
  unfold codeMean codeSum
  simp only [List.foldl_cons, List.foldl_nil, List.length_cons, List.length_nil, zero_add]
  rw [jdiv_num _ (by norm_num)]
  norm_num

lemma computeStats_singleton (x : ℚ) :
    (computeStats [x]).trendPct = .num 0 ∧ (computeStats [x]).trend = .stable := by
  have hslope : codeSlope [x] = .num 0 := by
    unfold codeSlope
    rw [codeDen_singleton]
    simp
  have hpct : codeTrendPct [x] = .num 0 := by
    unfold codeTrendPct
    rw [codeMean_singleton, hslope]
    by_cases hx : x = 0
    · simp [hx]
    · rw [if_pos (by simpa using hx), jmul_num, zero_mul, jdiv_num _ hx, zero_div,
        jmul_num, zero_mul]
  constructor
  · show codeTrendPct [x] = .num 0
    exact hpct
  · show codeTrend [x] = .stable
    unfold codeTrend
    rw [hpct]
    norm_num [jabs, jlt]

/-! ### Handler-level lemmas -/

lemma ndviHandler_reject {jsin : ℚ → ℚ} {lat lon : ℚ} {s e : ℤ}
    (h : isInsidePakistan lat lon = false) :
    ndviHandler jsin lat lon s e = .outOfBounds PAKISTAN_BOUNDS := by
  simp [ndviHandler, h]

lemma aiHandler_reject {jsin : ℚ → ℚ} {lat lon : ℚ} {s e : ℤ}
    (h : isInsidePakistan lat lon = false) :
    aiHandler jsin lat lon s e = .outOfBounds PAKISTAN_BOUNDS := by
  simp [aiHandler, h]

lemma no2Handler_reject {jsin : ℚ → ℚ} {rand : ℕ → ℚ} {lat lon : ℚ} {s e : ℤ}
    (h : isInsidePakistan lat lon = false) :
    no2Handler jsin rand lat lon s e = .outOfBounds PAKISTAN_BOUNDS := by
  simp [no2Handler, h]

lemma so2Handler_reject {jsin : ℚ → ℚ} {lat lon : ℚ} {s e : ℤ}
    (h : isInsidePakistan lat lon = false) :
    so2Handler jsin lat lon s e = .outOfBounds PAKISTAN_BOUNDS := by
  simp [so2Handler, h]

lemma coHandler_reject {jsin : ℚ → ℚ} {lat lon : ℚ} {s e : ℤ}
    (h : isInsidePakistan lat lon = false) :
    coHandler jsin lat lon s e = .outOfBounds PAKISTAN_BOUNDS := by
  simp [coHandler, h]

lemma generateDeterministicNDVI_empty {jsin : ℚ → ℚ} {lat lon : ℚ} {s e : ℤ} (h : e < s) :
    generateDeterministicNDVI jsin lat lon s e = [] := by
  simp [generateDeterministicNDVI, yearsList_nil h]

lemma generateAerosolIndex_empty {jsin : ℚ → ℚ} {lat lon : ℚ} {s e : ℤ} (h : e < s) :
    generateAerosolIndex jsin lat lon s e = [] := by
  simp [generateAerosolIndex, yearsList_nil h]

lemma generateSO2_empty {jsin : ℚ → ℚ} {lat lon : ℚ} {s e : ℤ} (h : e < s) :
    generateSO2 jsin lat lon s e = [] := by
  simp [generateSO2, yearsList_nil h]

lemma generateCO_empty {jsin : ℚ → ℚ} {lat lon : ℚ} {s e : ℤ} (h : e < s) :
    generateCO jsin lat lon s e = [] := by
  simp [generateCO, yearsList_nil h]

lemma generateNO2_empty {jsin : ℚ → ℚ} {rand : ℕ → ℚ} {lat lon : ℚ} {s e : ℤ} (h : e < s) :
    generateNO2 jsin rand lat lon s e = [] := by
  simp [generateNO2, yearsList_nil h]

/-! ### Concrete evaluations of the NO2 generator at one in-bounds input -/

lemma toExponential4_no2_randZero : toExponential4 2312500000000000 = 2312500000000000 := by
  have h2 : decExp 2312500000000000 = 15 := by
    have h1 : (⌊(2312500000000000 : ℚ)⌋ : ℤ) = 2312500000000000 := by norm_num
    unfold decExp
    rw [h1]
    decide
  unfold toExponential4
  rw [h2]
  norm_num [round_eq, Int.floor_eq_iff]

lemma toExponential4_no2_randHalf : toExponential4 2500000000000000 = 2500000000000000 := by
  have h2 : decExp 2500000000000000 = 15 := by
    have h1 : (⌊(2500000000000000 : ℚ)⌋ : ℤ) = 2500000000000000 := by norm_num
    unfold decExp
    rw [h1]
    decide
  unfold toExponential4
  rw [h2]
  norm_num [round_eq, Int.floor_eq_iff]

lemma yearsList_2019_2019 : yearsList 2019 2019 = [2019] := by
  norm_num [yearsList]
  decide

lemma no2Base_balochistan : no2Base 30.3753 69.3451 = 2500000000000000 := by
  norm_num [no2Base]

lemma monthsList_cons : monthsList = 1 :: [2, 3, 4, 5, 6, 7, 8, 9, 10, 11, 12] := by decide

lemma generateNO2_head_randZero :
    ((generateNO2 jsin0 randZero 30.3753 69.3451 2019 2019).map TSPoint.value).headD 0 =
      2312500000000000 := by
  simp only [generateNO2, yearsList_2019_2019, no2Base_balochistan, monthsList_cons,
    List.flatMap_cons, List.flatMap_nil, List.append_nil, List.map_cons, List.headD_cons]
  unfold no2Point
  simp only [jsin0, randZero]
  rw [if_neg (by norm_num)]
  norm_num
  exact toExponential4_no2_randZero

lemma generateNO2_head_randHalf :
    ((generateNO2 jsin0 randHalf 30.3753 69.3451 2019 2019).map TSPoint.value).headD 0 =
      2500000000000000 := by
  simp only [generateNO2, yearsList_2019_2019, no2Base_balochistan, monthsList_cons,
    List.flatMap_cons, List.flatMap_nil, List.append_nil, List.map_cons, List.headD_cons]
  unfold no2Point
  simp only [jsin0, randHalf]
  rw [if_neg (by norm_num)]
  norm_num
  exact toExponential4_no2_randHalf

/-! ## The claims -/

/-- C1: the claim asserts that all five synthesizers are pure functions of
`(lat, lon, startYear, endYear)` with no ambient randomness.  The NDVI,
aerosol, SO2 and CO generators are; but `generateNO2` draws `Math.random()`
each month, so at the in-bounds input `(30.3753, 69.3451, 2019, 2019)` two
runs whose ambient random streams differ (here: all draws 0 versus all draws
1/2) return different series — the NO2 synthesizer is not a function of its
arguments.  This theorem evaluates the code at that failing input. -/
theorem claim_C1 :
    generateNO2 jsin0 randZero 30.3753 69.3451 2019 2019 ≠
      generateNO2 jsin0 randHalf 30.3753 69.3451 2019 2019 := by
  intro heq
  have h := congrArg (fun ts => (ts.map TSPoint.value).headD 0) heq
  simp only at h
  rw [generateNO2_head_randZero, generateNO2_head_randHalf] at h
  norm_num at h

/-- C2: on every nonempty series, the handlers' statistics block computes
exactly the spec formulas: population mean/min/max/variance (so `stdDev`,
the square root of the variance on both sides, agrees as well), the centered
OLS slope with `xMean = (n-1)/2` (0 when the denominator vanishes),
`trendPercent = slope * n / mean * 100` when the mean is nonzero and 0
otherwise, and the `stable`/`increasing`/`decreasing` label by the
`|trendPercent| < 2` threshold; in particular a zero-slope series gets
`trendPercent = 0` and label `stable`. -/
theorem claim_C2 (l : List ℚ) (h : l ≠ []) :
    computeStats l =
      { mean := .num (specMean l), vmin := .num (specMin l), vmax := .num (specMax l),
        variance := .num (specVariance l), slope := .num (specSlope l),
        trendPct := .num (specTrendPct l), trend := specTrend l } ∧
      (specSlope l = 0 → specTrendPct l = 0 ∧ specTrend l = Trend.stable) := by
  refine ⟨computeStats_spec h, ?_⟩
  intro h0
  have hpct : specTrendPct l = 0 := by
    unfold specTrendPct
    by_cases hm : specMean l = 0
    · simp [hm]
    · simp [hm, h0]
  refine ⟨hpct, ?_⟩
  unfold specTrend
  rw [hpct]
  norm_num

/-- Witness for C2 at the concrete nonempty series `[0.5, 0.25]`. -/
theorem claim_C2_witness :
    (([0.5, 0.25] : List ℚ) ≠ []) ∧
      (computeStats [0.5, 0.25] =
        { mean := .num (specMean [0.5, 0.25]), vmin := .num (specMin [0.5, 0.25]),
          vmax := .num (specMax [0.5, 0.25]), variance := .num (specVariance [0.5, 0.25]),
          slope := .num (specSlope [0.5, 0.25]), trendPct := .num (specTrendPct [0.5, 0.25]),
          trend := specTrend [0.5, 0.25] } ∧
        (specSlope [0.5, 0.25] = 0 →
          specTrendPct [0.5, 0.25] = 0 ∧ specTrend [0.5, 0.25] = Trend.stable)) :=
  ⟨by simp, claim_C2 [0.5, 0.25] (by simp)⟩

/-- C3: `isInsidePakistan` is exactly the bounding-box predicate
`23.5 ≤ lat ≤ 37.1 ∧ 60.9 ≤ lon ≤ 77.5`; it rejects `(10, 10)` and accepts
`(30.3753, 69.3451)`; and every per-point handler answers any request that
fails it with the HTTP-400 out-of-bounds response carrying the bounding box
(no time series is produced: the response holds no payload). -/
theorem claim_C3 :
    (∀ lat lon : ℚ, isInsidePakistan lat lon = true ↔
      (23.5 ≤ lat ∧ lat ≤ 37.1 ∧ 60.9 ≤ lon ∧ lon ≤ 77.5)) ∧
    isInsidePakistan 10 10 = false ∧
    isInsidePakistan 30.3753 69.3451 = true ∧
    (∀ (jsin : ℚ → ℚ) (rand : ℕ → ℚ) (lat lon : ℚ) (s e : ℤ),
      isInsidePakistan lat lon = false →
        ndviHandler jsin lat lon s e = .outOfBounds PAKISTAN_BOUNDS ∧
        aiHandler jsin lat lon s e = .outOfBounds PAKISTAN_BOUNDS ∧
        no2Handler jsin rand lat lon s e = .outOfBounds PAKISTAN_BOUNDS ∧
        so2Handler jsin lat lon s e = .outOfBounds PAKISTAN_BOUNDS ∧
        coHandler jsin lat lon s e = .outOfBounds PAKISTAN_BOUNDS) ∧
    (∀ b : GeoBounds, respStatus (Resp.outOfBounds b : Resp PayloadFull) = 400 ∧
      respStatus (Resp.outOfBounds b : Resp PayloadBasic) = 400) := by
  refine ⟨fun lat lon => isInsidePakistan_iff, ?_, ?_, ?_, fun b => ⟨rfl, rfl⟩⟩
  · norm_num [isInsidePakistan, PAKISTAN_BOUNDS]
  · norm_num [isInsidePakistan, PAKISTAN_BOUNDS]
  · intro jsin rand lat lon s e h
    exact ⟨ndviHandler_reject h, aiHandler_reject h, no2Handler_reject h,
      so2Handler_reject h, coHandler_reject h⟩

/-- Witness for C3: the NDVI handler rejects `(10, 10)` with HTTP 400 and the
bounding box. -/
theorem claim_C3_witness :
    ndviHandler jsin0 10 10 2019 2025 = .outOfBounds PAKISTAN_BOUNDS ∧
      respStatus (ndviHandler jsin0 10 10 2019 2025) = 400 := by
  have h := claim_C3
  have hrej := (h.2.2.2.1 jsin0 randZero 10 10 2019 2025 h.2.1).1
  exact ⟨hrej, by rw [hrej]; exact (h.2.2.2.2 PAKISTAN_BOUNDS).1⟩

/-- C4: for `startYear ≤ endYear` every one of the five generators emits
exactly one point per calendar month of the inclusive year range — its date
sequence is the month enumeration, of length `12 * (endYear - startYear + 1)`,
strictly increasing chronologically (hence no duplicates and no gaps): a pair
`(y, m)` occurs exactly when `startYear ≤ y ≤ endYear` and `1 ≤ m ≤ 12`. -/
theorem claim_C4 (jsin : ℚ → ℚ) (rand : ℕ → ℚ) (lat lon : ℚ) (s e : ℤ) (hse : s ≤ e) :
    ((generateDeterministicNDVI jsin lat lon s e).map TSPoint.date = monthlyDates s e ∧
     (generateAerosolIndex jsin lat lon s e).map TSPoint.date = monthlyDates s e ∧
     (generateSO2 jsin lat lon s e).map TSPoint.date = monthlyDates s e ∧
     (generateCO jsin lat lon s e).map TSPoint.date = monthlyDates s e ∧
     (generateNO2 jsin rand lat lon s e).map TSPoint.date = monthlyDates s e) ∧
    (monthlyDates s e).length = 12 * (e - s + 1).toNat ∧
    (monthlyDates s e).Pairwise dateLt ∧
    (∀ (y : ℤ) (m : ℕ), (y, m) ∈ monthlyDates s e ↔ (s ≤ y ∧ y ≤ e ∧ 1 ≤ m ∧ m ≤ 12)) :=
  ⟨⟨generateDeterministicNDVI_map_date jsin lat lon s e,
    generateAerosolIndex_map_date jsin lat lon s e,
    generateSO2_map_date jsin lat lon s e,
    generateCO_map_date jsin lat lon s e,
    generateNO2_map_date jsin rand lat lon s e⟩,
   monthlyDates_length s e, monthlyDates_pairwise s e,
   fun y m => monthlyDates_mem⟩

/-- Witness for C4 at `startYear = 2019, endYear = 2020`: the NDVI series has
exactly `24` points. -/
theorem claim_C4_witness :
    ((2019 : ℤ) ≤ 2020) ∧
      (generateDeterministicNDVI jsin0 30 70 2019 2020).length = 24 := by
  refine ⟨by norm_num, ?_⟩
  have h := claim_C4 jsin0 randZero 30 70 2019 2020 (by norm_num)
  have hmap := h.1.1
  have hlen := h.2.1
  have : (generateDeterministicNDVI jsin0 30 70 2019 2020).length =
      (monthlyDates 2019 2020).length := by
    rw [← hmap, List.length_map]
  rw [this, hlen]
  decide

/-- C5, counterexample: the claim asserts that every generated value lies in
the parameter's declared `[min, max]` range, "including NO2".  But the NO2
generator clamps only from below (`Math.max(1e14, …)`, molecules/cm²), and
its values far exceed the only declared two-sided NO2 range in the repository
(`PARAMETERS.NO2` of the client types module: `max = 0.0003` mol/m²): at the
in-bounds input `(30.3753, 69.3451, 2019, 2019)`, the first generated NO2
value is `2.5e15`. -/
theorem claim_C5_counterexample :
    PARAMETERS_NO2_range.max <
      ((generateNO2 jsin0 randHalf 30.3753 69.3451 2019 2019).map TSPoint.value).headD 0 ∧
      isInsidePakistan 30.3753 69.3451 = true := by
  constructor
  · rw [generateNO2_head_randHalf]
    norm_num [PARAMETERS_NO2_range]
  · norm_num [isInsidePakistan, PAKISTAN_BOUNDS]

/-- C5, amended: for the four `toFixed`-rounded parameters every generated
value lies in the generator's clamp range — NDVI in `[-0.1, 0.9]`, aerosol
index in `[0, 5]`, SO2 in `[0.01, 1.5]`, CO in `[0.015, 0.08]` — while NO2
values satisfy only the declared lower clamp `1e14`; the code declares no
upper physical bound for NO2 (and its values exceed the client-declared NO2
range `[0, 0.0003]`, stated in different units). -/
theorem claim_C5_amended (jsin : ℚ → ℚ) (rand : ℕ → ℚ) (lat lon : ℚ) (s e : ℤ) :
    (∀ p ∈ generateDeterministicNDVI jsin lat lon s e, -0.1 ≤ p.value ∧ p.value ≤ 0.9) ∧
    (∀ p ∈ generateAerosolIndex jsin lat lon s e, 0 ≤ p.value ∧ p.value ≤ 5) ∧
    (∀ p ∈ generateSO2 jsin lat lon s e, 0.01 ≤ p.value ∧ p.value ≤ 1.5) ∧
    (∀ p ∈ generateCO jsin lat lon s e, 0.015 ≤ p.value ∧ p.value ≤ 0.08) ∧
    (∀ p ∈ generateNO2 jsin rand lat lon s e, 100000000000000 ≤ p.value) := by
  refine ⟨?_, ?_, ?_, ?_, ?_⟩ <;> intro p hp
  · obtain ⟨y, m, _, _, rfl⟩ := mem_generateDeterministicNDVI.1 hp
    exact ndviPoint_value_bounds _ _ _ _ _ _
  · obtain ⟨y, m, _, _, rfl⟩ := mem_generateAerosolIndex.1 hp
    exact aiPoint_value_bounds _ _ _ _ _
  · obtain ⟨y, m, _, _, rfl⟩ := mem_generateSO2.1 hp
    exact so2Point_value_bounds _ _ _ _ _
  · obtain ⟨y, m, _, _, rfl⟩ := mem_generateCO.1 hp
    exact coPoint_value_bounds _ _ _ _ _
  · obtain ⟨y, m, _, _, rfl⟩ := mem_generateNO2.1 hp
    exact no2Point_value_lower _ _ _ _ _ _

/-- Witness for the amended C5 at a concrete generated NDVI point. -/
theorem claim_C5_witness :
    (ndviPoint jsin0 (ndviRegionParams 30 70) (locationSeed 30 70) 2019 2019 1 ∈
      generateDeterministicNDVI jsin0 30 70 2019 2019) ∧
    (-0.1 ≤ (ndviPoint jsin0 (ndviRegionParams 30 70) (locationSeed 30 70) 2019 2019 1).value ∧
      (ndviPoint jsin0 (ndviRegionParams 30 70) (locationSeed 30 70) 2019 2019 1).value ≤ 0.9) := by
  have hmem : ndviPoint jsin0 (ndviRegionParams 30 70) (locationSeed 30 70) 2019 2019 1 ∈
      generateDeterministicNDVI jsin0 30 70 2019 2019 :=
    mem_generateDeterministicNDVI.2
      ⟨2019, 1, yearsList_mem.2 ⟨le_refl _, le_refl _⟩,
        monthsList_mem.2 ⟨le_refl _, by norm_num⟩, rfl⟩
  exact ⟨hmem, (claim_C5_amended jsin0 randZero 30 70 2019 2019).1 _ hmem⟩

/-- C6, counterexample: the claim asserts that every per-point success
response carries all six `Statistics` fields; but the get-so2 response's
stats object has no `stdDev` key (nor `trend`, `trendPercent`) while the
client-declared `Statistics` shape requires it. -/
theorem claim_C6_counterexample :
    ¬ ("stdDev" ∈ so2StatsFields) ∧ "stdDev" ∈ statisticsShapeFields := by
  constructor
  · simp [so2StatsFields]
  · simp [statisticsShapeFields]

/-- C6, amended: the NDVI and aerosol handlers' stats objects carry all six
declared `Statistics` fields, but the NO2, SO2 and CO handlers' stats objects
carry only `mean`, `min`, `max`. -/
theorem claim_C6_amended :
    ndviStatsFields = statisticsShapeFields ∧
    aiStatsFields = statisticsShapeFields ∧
    no2StatsFields = ["mean", "min", "max"] ∧
    so2StatsFields = ["mean", "min", "max"] ∧
    coStatsFields = ["mean", "min", "max"] :=
  ⟨rfl, rfl, rfl, rfl, rfl⟩

/-- C7: the claim requires the statistics engine to return `trendPercent = 0`
and `trend = stable` with no NaN on series of length 0 or 1.  The code
honours this for length 1, but on the empty series (reachable: the handlers
never validate `startYear ≤ endYear`) JavaScript evaluates `0 / 0 = NaN` for
the mean, every NaN comparison is false, and the classification falls through
to `'decreasing'` with `trendPercent = NaN` — evaluated here at the failing
input `[]` (and, for contrast, at the length-1 series `[0.5]`, which behaves
as claimed). -/
theorem claim_C7 :
    (computeStats []).mean = .nan ∧ (computeStats []).trendPct = .nan ∧
      (computeStats []).trend = .decreasing ∧
      (computeStats [0.5]).trendPct = .num 0 ∧ (computeStats [0.5]).trend = .stable :=
  ⟨computeStats_nil.1, computeStats_nil.2.1, computeStats_nil.2.2,
    (computeStats_singleton 0.5).1, (computeStats_singleton 0.5).2⟩

/-- C8, counterexample: the claim asserts that any two distinct in-bounds
locations with the same region classification produce different (not
byte-identical) series.  But the location enters the seed only through
`round(lat*10000)` and `round(lon*10000)`: the distinct in-bounds locations
`(30.00001, 69.8)` and `(30.00002, 69.8)` share the region classification and
the location seed, so their NDVI series are byte-identical (here under a
sine model that separates distinct arguments, so the equality certifies that
the seeds coincide). -/
theorem claim_C8_counterexample :
    generateDeterministicNDVI jsinSep 30.00001 69.8 2019 2019 =
        generateDeterministicNDVI jsinSep 30.00002 69.8 2019 2019 ∧
      (30.00001 : ℚ) ≠ 30.00002 ∧
      ndviRegionParams 30.00001 69.8 = ndviRegionParams 30.00002 69.8 ∧
      isInsidePakistan 30.00001 69.8 = true ∧
      isInsidePakistan 30.00002 69.8 = true := by
  refine ⟨?_, by norm_num, ?_, ?_, ?_⟩
  · exact generateDeterministicNDVI_congr
      (by norm_num [ndviRegionParams])
      (by norm_num [locationSeed, round_eq, Int.floor_eq_iff])
  · norm_num [ndviRegionParams]
  · norm_num [isInsidePakistan, PAKISTAN_BOUNDS]
  · norm_num [isInsidePakistan, PAKISTAN_BOUNDS]

/-- C8, amended: for the four seeded parameters the series depends on the
location only through the region data and the rounded seed coordinates
`(round(lat*10000), round(lon*10000))` — so two calls for the same location
produce identical sequences, while distinct locations sharing those produce
byte-identical series; the seed is `locationSeed + year*13 + month*7` with
`locationSeed = round(lat*10000) + round(lon*10000)*100000`.  (The NO2
series is not location-seeded at all: it draws ambient randomness, see C1.) -/
theorem claim_C8_amended (jsin : ℚ → ℚ) (lat lon lat' lon' : ℚ) (s e : ℤ)
    (hlat : round (lat * 10000) = round (lat' * 10000))
    (hlon : round (lon * 10000) = round (lon' * 10000))
    (hndvi : ndviRegionParams lat lon = ndviRegionParams lat' lon')
    (hai : aiRegionParams lat lon = aiRegionParams lat' lon')
    (hso2 : so2Base lat lon = so2Base lat' lon')
    (hco : coBase lat lon = coBase lat' lon') :
    generateDeterministicNDVI jsin lat lon s e = generateDeterministicNDVI jsin lat' lon' s e ∧
    generateAerosolIndex jsin lat lon s e = generateAerosolIndex jsin lat' lon' s e ∧
    generateSO2 jsin lat lon s e = generateSO2 jsin lat' lon' s e ∧
    generateCO jsin lat lon s e = generateCO jsin lat' lon' s e := by
  have hseed : locationSeed lat lon = locationSeed lat' lon' := by
    unfold locationSeed
    rw [hlat, hlon]
  exact ⟨generateDeterministicNDVI_congr hndvi hseed,
    generateAerosolIndex_congr hai hseed,
    generateSO2_congr hso2 hseed,
    generateCO_congr hco hseed⟩

/-- Witness for the amended C8 at the concrete seed-sharing pair. -/
theorem claim_C8_witness :
    (round ((30.00001 : ℚ) * 10000) = round ((30.00002 : ℚ) * 10000) ∧
      round ((69.8 : ℚ) * 10000) = round ((69.8 : ℚ) * 10000)) ∧
    generateDeterministicNDVI jsinSep 30.00001 69.8 2019 2019 =
      generateDeterministicNDVI jsinSep 30.00002 69.8 2019 2019 := by
  have hlat : round ((30.00001 : ℚ) * 10000) = round ((30.00002 : ℚ) * 10000) := by
    norm_num [round_eq, Int.floor_eq_iff]
  refine ⟨⟨hlat, rfl⟩, ?_⟩
  exact (claim_C8_amended jsinSep 30.00001 69.8 30.00002 69.8 2019 2019 hlat rfl
    (by norm_num [ndviRegionParams]) (by norm_num [aiRegionParams])
    (by norm_num [so2Base]) (by norm_num [coBase])).1

/-- C9: no per-point handler validates `startYear ≤ endYear`; an in-bounds
request with `startYear > endYear` is not rejected: the month loop runs zero
times and the handler returns the success response with an empty
`timeSeries` (whose stats are then the degenerate JS values, see C7). -/
theorem claim_C9 (jsin : ℚ → ℚ) (rand : ℕ → ℚ) (lat lon : ℚ) (s e : ℤ)
    (hin : isInsidePakistan lat lon = true) (hse : e < s) :
    ndviHandler jsin lat lon s e = .ok { timeSeries := [], stats := computeStats [] } ∧
    aiHandler jsin lat lon s e = .ok { timeSeries := [], stats := computeStats [] } ∧
    no2Handler jsin rand lat lon s e =
      .ok { timeSeries := [], stats := computeStatsBasic [] } ∧
    so2Handler jsin lat lon s e = .ok { timeSeries := [], stats := computeStatsBasic [] } ∧
    coHandler jsin lat lon s e = .ok { timeSeries := [], stats := computeStatsBasic [] } := by
  refine ⟨?_, ?_, ?_, ?_, ?_⟩
  · simp [ndviHandler, hin, generateDeterministicNDVI_empty hse]
  · simp [aiHandler, hin, generateAerosolIndex_empty hse]
  · simp [no2Handler, hin, generateNO2_empty hse]
  · simp [so2Handler, hin, generateSO2_empty hse]
  · simp [coHandler, hin, generateCO_empty hse]

/-- Witness for C9 at the in-bounds input `(30, 70)` with
`startYear = 2021 > endYear = 2019`. -/
theorem claim_C9_witness :
    (isInsidePakistan 30 70 = true ∧ (2019 : ℤ) < 2021) ∧
      ndviHandler jsin0 30 70 2021 2019 =
        .ok { timeSeries := [], stats := computeStats [] } := by
  have hin : isInsidePakistan 30 70 = true := by
    norm_num [isInsidePakistan, PAKISTAN_BOUNDS]
  exact ⟨⟨hin, by norm_num⟩,
    (claim_C9 jsin0 randZero 30 70 2021 2019 hin (by norm_num)).1⟩

/-- C10: on every generated per-point time-series point, for all five
parameters, the uncertainty band brackets the value: `min ≤ value ≤ max`
(the half-width is nonnegative, and the decimal roundings applied to
`value - width`, `value`, `value + width` are monotone). -/
theorem claim_C10 (jsin : ℚ → ℚ) (rand : ℕ → ℚ) (lat lon : ℚ) (s e : ℤ) :
    (∀ p ∈ generateDeterministicNDVI jsin lat lon s e, p.min ≤ p.value ∧ p.value ≤ p.max) ∧
    (∀ p ∈ generateAerosolIndex jsin lat lon s e, p.min ≤ p.value ∧ p.value ≤ p.max) ∧
    (∀ p ∈ generateSO2 jsin lat lon s e, p.min ≤ p.value ∧ p.value ≤ p.max) ∧
    (∀ p ∈ generateCO jsin lat lon s e, p.min ≤ p.value ∧ p.value ≤ p.max) ∧
    (∀ p ∈ generateNO2 jsin rand lat lon s e, p.min ≤ p.value ∧ p.value ≤ p.max) := by
  refine ⟨?_, ?_, ?_, ?_, ?_⟩ <;> intro p hp
  · obtain ⟨y, m, _, _, rfl⟩ := mem_generateDeterministicNDVI.1 hp
    exact ndviPoint_band _ _ _ _ _ _
  · obtain ⟨y, m, _, _, rfl⟩ := mem_generateAerosolIndex.1 hp
    exact aiPoint_band _ _ _ _ _
  · obtain ⟨y, m, _, _, rfl⟩ := mem_generateSO2.1 hp
    exact so2Point_band _ _ _ _ _
  · obtain ⟨y, m, _, _, rfl⟩ := mem_generateCO.1 hp
    exact coPoint_band _ _ _ _ _
  · obtain ⟨y, m, _, _, rfl⟩ := mem_generateNO2.1 hp
    exact no2Point_band _ _ _ _ _ _

/-- Witness for C10 at a concrete generated SO2 point. -/
theorem claim_C10_witness :
    (so2Point jsin0 (so2Base 30 70) (locationSeed 30 70) 2019 1 ∈
      generateSO2 jsin0 30 70 2019 2019) ∧
    ((so2Point jsin0 (so2Base 30 70) (locationSeed 30 70) 2019 1).min ≤
        (so2Point jsin0 (so2Base 30 70) (locationSeed 30 70) 2019 1).value ∧
      (so2Point jsin0 (so2Base 30 70) (locationSeed 30 70) 2019 1).value ≤
        (so2Point jsin0 (so2Base 30 70) (locationSeed 30 70) 2019 1).max) := by
  have hmem : so2Point jsin0 (so2Base 30 70) (locationSeed 30 70) 2019 1 ∈
      generateSO2 jsin0 30 70 2019 2019 :=
    mem_generateSO2.2
      ⟨2019, 1, yearsList_mem.2 ⟨le_refl _, le_refl _⟩,
        monthsList_mem.2 ⟨le_refl _, by norm_num⟩, rfl⟩
  exact ⟨hmem, (claim_C10 jsin0 randZero 30 70 2019 2019).2.2.1 _ hmem⟩

end EarthScope
